import Mathlib

/-!
Verification development for the waggle-dance bridge (wdd_bridge/bridge.py).

The file shallowly embeds the bridge's data model and operations:

- Angles are real numbers (the source computes with floats and np.pi);
  the Python float modulo on nonnegative divisors is embedded as
  fmod a b = a - b * floor (a / b), and Python's int() truncation as
  pytrunc.
- HiveSide.process is embedded as a function from the clusterer's
  observation list (DanceDetector.process is external) and the external
  comb-mapper function to the pair of emitted log lines and actuator
  messages, in emission order.
- The Bridge lifecycle is a state machine: BridgeState carries the
  running flag, the closed/present flags of the five owned resources,
  a counter of executions of the body of Bridge.stop, the messages sent
  to the comb connector, and the UI log buffer.  Bridge.stop is
  parameterised by which external close calls fail (CloseBehavior);
  a failing close propagates, exactly as unprotected Python calls do.
- Bridge.run is driven by a finite script of per-iteration external
  inputs (TickInput: the quit keystroke seen by run_ui, an external
  stop request arriving during the bounded wait, and the message the
  wait returns).  The unknown-camera branch reproduces the source:
  the diagnostic is printed and then the dictionary lookup raises
  (RunExit.keyError); the try/finally around the loop runs stop on
  every exit.
- The bottom log panel of run_ui is embedded as the list of
  (row, text) print calls it issues, and the print_fn closure of
  Bridge.__init__ as a state transformer on the log buffer.
-/

namespace WddBridge

/-- CombTriggerActuatorMessage(idx, signal_index=1, side=1) as constructed in
HiveSide.process; all payload fields are Python ints. -/
structure CombTriggerActuatorMessage where
  idx : Int
  signal_index : Int
  side : Int
deriving DecidableEq

/-- The 16 compass labels of HiveSide.process (source order, lines 36-41). -/
def worldDirections : List String :=
  ["E", "NEE", "NE", "NNE",
   "N", "NNW", "NW", "NWW",
   "W", "SWW", "SW", "SSW",
   "S", "SSE", "SE", "SEE"]

/-- Python float modulo for a positive divisor: a % b = a - b * floor (a / b). -/
noncomputable def fmod (a b : ℝ) : ℝ := a - b * ↑⌊a / b⌋

/-- Python int() on a float: truncation toward zero. -/
noncomputable def pytrunc (r : ℝ) : ℤ := if 0 ≤ r then ⌊r⌋ else -⌊-r⌋

/-- The direction-bucket index computed at line 42-43 of bridge.py:
angle = (2*pi + world_angle) % (2*pi);
index = int((angle / pi * 180) / (360 / len(world_directions))). -/
noncomputable def worldAngleIndex (world_angle : ℝ) : ℤ :=
  pytrunc ((fmod (2 * Real.pi + world_angle) (2 * Real.pi)) / Real.pi * 180 /
    (360 / (worldDirections.length : ℝ)))

/-- The direction label world_directions[index] selected for a world angle. -/
noncomputable def worldDirection (world_angle : ℝ) : String :=
  worldDirections.getD (worldAngleIndex world_angle).toNat ""

/-- Result of the external CombMapper.map_to_comb: comb coordinates, the
corrected (local) waggle angle, the world angle, and the actuator
index/distance pair. -/
structure MapResult where
  xy : ℝ × ℝ
  waggle_angle : ℝ
  world_angle : ℝ
  idx : Int
  distance : ℝ

/-- One (x, y, waggle_angle) observation produced by the external
DanceDetector.process; the angle may be absent. -/
structure Obs where
  x : ℝ
  y : ℝ
  angle : Option ℝ

/-- The fields of the human-readable line printed for each observation:
direction label, world angle in degrees, camera id, local (hive) angle in
degrees. -/
structure LogLine where
  direction : String
  worldAngleDeg : ℝ
  camId : String
  hiveAngleDeg : ℝ

/-- HiveSide.process: for each observation from the clusterer, map it through
the comb mapper, emit one log line and yield one
CombTriggerActuatorMessage(idx, signal_index=1, side=1).  The external
clusterer output and mapper are parameters; the result lists are in emission
order. -/
noncomputable def HiveSide.process (cam_id : String)
    (map_to_comb : ℝ → ℝ → Option ℝ → MapResult) :
    List Obs → List LogLine × List CombTriggerActuatorMessage
  | [] => ([], [])
  | o :: rest =>
    let r := map_to_comb o.x o.y o.angle
    let line : LogLine :=
      { direction := worldDirection r.world_angle
        worldAngleDeg := r.world_angle / Real.pi * 180
        camId := cam_id
        hiveAngleDeg := r.waggle_angle / Real.pi * 180 }
    let msg : CombTriggerActuatorMessage := { idx := r.idx, signal_index := 1, side := 1 }
    let prev := HiveSide.process cam_id map_to_comb rest
    (line :: prev.1, msg :: prev.2)

/-- Lifecycle state of the Bridge: the running flag, which of the five owned
resources exist and have been closed, how many times the body of stop has
executed, the messages sent to the comb connector, and the UI log buffer. -/
structure BridgeState where
  running : Bool
  statsPresent : Bool
  screenOpen : Bool
  wddClosed : Bool
  combClosed : Bool
  camsClosed : Bool
  statsClosed : Bool
  screenClosed : Bool
  stopRuns : Nat
  sent : List CombTriggerActuatorMessage
  log : List String
deriving DecidableEq

/-- Which of the external close calls raise when invoked (HiveSide.close is
a bare pass and cannot raise). -/
structure CloseBehavior where
  wddFails : Bool
  combFails : Bool
  statsFails : Bool
  screenFails : Bool
deriving DecidableEq

/-- Outcome of Bridge.stop: the resulting state, the closes that completed
(in order), and the exception that propagated, if any. -/
structure StopResult where
  state : BridgeState
  closed : List String
  err : Option String
deriving DecidableEq

/-- Bridge.stop (bridge.py lines 116-129): if running, clear the flag, then
close wdd, comb, every camera, the statistics sink if present, and the screen
if opened, in that order.  The Python close calls are unprotected, so the
first raising close propagates immediately and the later closes never run. -/
def Bridge.stop (b : CloseBehavior) (s : BridgeState) : StopResult :=
  if s.running then
    let s0 : BridgeState := { s with running := false, stopRuns := s.stopRuns + 1 }
    if b.wddFails then ⟨s0, [], some "wdd"⟩
    else
      let s1 := { s0 with wddClosed := true }
      if b.combFails then ⟨s1, ["wdd"], some "comb"⟩
      else
        let s2 := { s1 with combClosed := true, camsClosed := true }
        if s2.statsPresent then
          if b.statsFails then ⟨s2, ["wdd", "comb", "cameras"], some "statistics"⟩
          else
            let s3 := { s2 with statsClosed := true }
            if s3.screenOpen then
              if b.screenFails then
                ⟨s3, ["wdd", "comb", "cameras", "statistics"], some "screen"⟩
              else
                ⟨{ s3 with screenClosed := true },
                  ["wdd", "comb", "cameras", "statistics", "screen"], none⟩
            else ⟨s3, ["wdd", "comb", "cameras", "statistics"], none⟩
        else
          if s2.screenOpen then
            if b.screenFails then ⟨s2, ["wdd", "comb", "cameras"], some "screen"⟩
            else ⟨{ s2 with screenClosed := true }, ["wdd", "comb", "cameras", "screen"], none⟩
          else ⟨s2, ["wdd", "comb", "cameras"], none⟩
  else ⟨s, [], none⟩

/-- Bridge.stop in the run used by the main loop, with every external close
succeeding: if running, clear the flag and close all five resources
(the statistics sink only if present, the screen only if opened). -/
def Bridge.stopOk (s : BridgeState) : BridgeState :=
  if s.running then
    { s with
      running := false
      stopRuns := s.stopRuns + 1
      wddClosed := true
      combClosed := true
      camsClosed := true
      statsClosed := s.statsPresent || s.statsClosed
      screenClosed := s.screenOpen || s.screenClosed }
  else s

/-- A dance-detection event received from the WDD listener; the payload is
opaque to the bridge loop. -/
structure Event where
  cam_id : String
  payload : Nat
deriving DecidableEq

/-- The external inputs consumed by one iteration of the Bridge.run loop:
whether run_ui saw the quit keystroke, whether an external stop request
(which calls Bridge.stop) arrived during the bounded wait, and what
wdd.get_message(block=True, timeout=1.0) returned. -/
structure TickInput where
  quitKey : Bool
  stopDuringWait : Bool
  message : Option Event
deriving DecidableEq

/-- How Bridge.run ended: the while loop exited with running false (normal),
an uncaught KeyError propagated from the unknown-camera lookup, or the
input script was exhausted while the loop would still continue. -/
inductive RunExit where
  | normal
  | keyError (camId : String)
  | outOfScript
deriving DecidableEq

/-- Bridge.run (bridge.py lines 131-155) driven by a finite input script.
Each iteration: run_ui (a quit keystroke calls stop), the bounded-wait
receive (an external stop request during the wait calls stop), the explicit
running recheck of line 140 (stop and break when cleared), the empty-message
continue, and the camera dispatch.  An event whose cam_id is not a key of
the camera dictionary gets the diagnostic print and then the lookup
self.cameras[waggle_cam_id] raises KeyError.  The try/finally wrapper runs
stop on every loop exit, normal or exceptional. -/
def Bridge.run (cameras : String → Option (Event → List CombTriggerActuatorMessage)) :
    List TickInput → BridgeState → RunExit × BridgeState
  | [], s =>
    if s.running then (RunExit.outOfScript, s) else (RunExit.normal, Bridge.stopOk s)
  | t :: rest, s =>
    if s.running then
      let s1 := if t.quitKey then Bridge.stopOk s else s
      let s2 := if t.stopDuringWait then Bridge.stopOk s1 else s1
      if s2.running then
        match t.message with
        | none => Bridge.run cameras rest s2
        | some ev =>
          match cameras ev.cam_id with
          | some hiveSide => Bridge.run cameras rest { s2 with sent := s2.sent ++ hiveSide ev }
          | none =>
            (RunExit.keyError ev.cam_id,
              Bridge.stopOk { s2 with log := s2.log ++ ["Received waggle for invalid camera ID."] })
      else (RunExit.normal, Bridge.stopOk (Bridge.stopOk s2))
    else (RunExit.normal, Bridge.stopOk s)

/-- The bottom log panel of Bridge.run_ui (bridge.py lines 234-243), as the
list of (row, text) print_at calls it issues: space = screen.height - cbottom;
if space > 0, take the last space stored lines and print line i at row
cbottom + 2 + i. -/
def Bridge.logPanel (height cbottom : ℤ) (log : List String) : List (ℤ × String) :=
  let space := height - cbottom
  if 0 < space then
    let logTail := log.drop (log.length - space.toNat)
    (List.range (min logTail.length space.toNat)).map
      (fun (i : ℕ) => (cbottom + 2 + (i : ℤ), logTail.getD i ""))
  else []

/-- State touched by the print_fn closure of Bridge.__init__: the UI log
buffer, whether a statistics sink exists, and the events forwarded to it. -/
structure LogState where
  log : List String
  statsPresent : Bool
  statsEvents : List (String × String)
deriving DecidableEq

/-- print_fn (bridge.py lines 71-78): append one timestamped line to the UI
log buffer and, when a statistics sink exists, forward the text as a "log"
event. -/
def Bridge.print_fn (now x : String) (s : LogState) : LogState :=
  { s with
    log := s.log ++ ["[" ++ now ++ "] " ++ x]
    statsEvents := if s.statsPresent then s.statsEvents ++ [("log", x)] else s.statsEvents }

/-- Concrete processing function of the single configured camera used in
witnesses: every event yields one message for actuator 2. -/
def camOneProc : Event → List CombTriggerActuatorMessage :=
  fun _ => [{ idx := 2, signal_index := 1, side := 1 }]

/-- Concrete camera dictionary used in witnesses: exactly one camera "cam1". -/
def cexCameras : String → Option (Event → List CombTriggerActuatorMessage) :=
  fun c => if c = "cam1" then some camOneProc else none

/-- Concrete freshly-started bridge state used in witnesses: running, with a
statistics sink and an opened screen, nothing closed, nothing sent or logged. -/
def initState : BridgeState :=
  { running := true
    statsPresent := true
    screenOpen := true
    wddClosed := false
    combClosed := false
    camsClosed := false
    statsClosed := false
    screenClosed := false
    stopRuns := 0
    sent := []
    log := [] }

/-- Close behavior in which only the WDD listener's close raises. -/
def failWdd : CloseBehavior :=
  { wddFails := true, combFails := false, statsFails := false, screenFails := false }

/-- After any call to Bridge.stop the running flag is false: either the body
ran and cleared it, or it was already false and the state is unchanged. -/
theorem stop_state_running_false (b : CloseBehavior) (s : BridgeState) :
    (Bridge.stop b s).state.running = false := by
  unfold Bridge.stop
  cases h1 : s.running <;> cases h2 : b.wddFails <;> cases h3 : b.combFails <;>
    cases h4 : s.statsPresent <;> cases h5 : b.statsFails <;> cases h6 : s.screenOpen <;>
    cases h7 : b.screenFails <;> simp [h1, h2, h3, h4, h5, h6, h7]

/-- Claim C3: Bridge.stop is idempotent.  A second stop returns the state of
the first unchanged, performs no close operations and raises nothing (the
body is guarded by the running flag, which the first call left false), so no
resource is closed twice and the running flag moves from true to false at
most once. -/
theorem stop_idempotent (b : CloseBehavior) (s : BridgeState) :
    Bridge.stop b (Bridge.stop b s).state = ⟨(Bridge.stop b s).state, [], none⟩ ∧
    (Bridge.stop b s).state.running = false := by
  have hrun := stop_state_running_false b s
  refine ⟨?_, hrun⟩
  generalize hT : (Bridge.stop b s).state = T at hrun
  simp [Bridge.stop, hrun]

/-- Claim C2 counterexample: in a running state that owns all five resources,
a failing close of the WDD listener propagates out of Bridge.stop before any
other close is attempted: the comb connector, cameras, statistics sink and
screen all stay unclosed and the completed-close list is empty, so the
closes are not independent and the stop sequence does not reach its terminal
state. -/
theorem stop_close_failure_not_independent_cex :
    initState.running = true ∧ initState.statsPresent = true ∧ initState.screenOpen = true ∧
    (Bridge.stop failWdd initState).err = some "wdd" ∧
    (Bridge.stop failWdd initState).state.wddClosed = false ∧
    (Bridge.stop failWdd initState).state.combClosed = false ∧
    (Bridge.stop failWdd initState).state.camsClosed = false ∧
    (Bridge.stop failWdd initState).state.statsClosed = false ∧
    (Bridge.stop failWdd initState).state.screenClosed = false ∧
    (Bridge.stop failWdd initState).closed = [] := by
  decide

/-- Claim C2 (amended): Bridge.stop from a running state clears the running
flag first and then closes the resources in the fixed order WDD listener,
comb connector, cameras, statistics sink, screen; the close calls are
unprotected, so whichever attempted close fails first makes the exception
propagate immediately with none of the later closes attempted — shown for a
failing WDD close, a failing comb close, a failing statistics close and a
failing screen close — while in the failure-free case every owned resource
is closed and nothing is raised. -/
theorem stop_close_failure_aborts_sequence (b : CloseBehavior) (s : BridgeState)
    (h : s.running = true) :
    (Bridge.stop b s).state.running = false ∧
    (b.wddFails = true →
      (Bridge.stop b s).err = some "wdd" ∧
      (Bridge.stop b s).closed = [] ∧
      (Bridge.stop b s).state.wddClosed = s.wddClosed ∧
      (Bridge.stop b s).state.combClosed = s.combClosed ∧
      (Bridge.stop b s).state.camsClosed = s.camsClosed ∧
      (Bridge.stop b s).state.statsClosed = s.statsClosed ∧
      (Bridge.stop b s).state.screenClosed = s.screenClosed) ∧
    (b.wddFails = false → b.combFails = true →
      (Bridge.stop b s).err = some "comb" ∧
      (Bridge.stop b s).closed = ["wdd"] ∧
      (Bridge.stop b s).state.wddClosed = true ∧
      (Bridge.stop b s).state.combClosed = s.combClosed ∧
      (Bridge.stop b s).state.camsClosed = s.camsClosed ∧
      (Bridge.stop b s).state.statsClosed = s.statsClosed ∧
      (Bridge.stop b s).state.screenClosed = s.screenClosed) ∧
    (b.wddFails = false → b.combFails = false → s.statsPresent = true →
      b.statsFails = true →
      (Bridge.stop b s).err = some "statistics" ∧
      (Bridge.stop b s).closed = ["wdd", "comb", "cameras"] ∧
      (Bridge.stop b s).state.wddClosed = true ∧
      (Bridge.stop b s).state.combClosed = true ∧
      (Bridge.stop b s).state.camsClosed = true ∧
      (Bridge.stop b s).state.statsClosed = s.statsClosed ∧
      (Bridge.stop b s).state.screenClosed = s.screenClosed) ∧
    (b.wddFails = false → b.combFails = false →
      (s.statsPresent = true → b.statsFails = false) →
      s.screenOpen = true → b.screenFails = true →
      (Bridge.stop b s).err = some "screen" ∧
      (Bridge.stop b s).closed
          = (if s.statsPresent then ["wdd", "comb", "cameras", "statistics"]
             else ["wdd", "comb", "cameras"]) ∧
      (Bridge.stop b s).state.wddClosed = true ∧
      (Bridge.stop b s).state.combClosed = true ∧
      (Bridge.stop b s).state.camsClosed = true ∧
      (Bridge.stop b s).state.statsClosed = (s.statsPresent || s.statsClosed) ∧
      (Bridge.stop b s).state.screenClosed = s.screenClosed) ∧
    (b.wddFails = false → b.combFails = false →
      (s.statsPresent = true → b.statsFails = false) →
      (s.screenOpen = true → b.screenFails = false) →
      (Bridge.stop b s).err = none ∧
      (Bridge.stop b s).state.wddClosed = true ∧
      (Bridge.stop b s).state.combClosed = true ∧
      (Bridge.stop b s).state.camsClosed = true ∧
      (Bridge.stop b s).state.statsClosed = (s.statsPresent || s.statsClosed) ∧
      (Bridge.stop b s).state.screenClosed = (s.screenOpen || s.screenClosed)) := by
  unfold Bridge.stop
  cases h2 : b.wddFails <;> cases h3 : b.combFails <;>
    cases h4 : s.statsPresent <;> cases h5 : b.statsFails <;> cases h6 : s.screenOpen <;>
    cases h7 : b.screenFails <;> simp [h, h2, h3, h4, h5, h6, h7]

/-- Witness for the amended claim C2, at the concrete running initial state
with only the WDD close failing. -/
theorem stop_close_failure_aborts_sequence_witness :
    initState.running = true ∧
    ((Bridge.stop failWdd initState).state.running = false ∧
      (failWdd.wddFails = true →
        (Bridge.stop failWdd initState).err = some "wdd" ∧
        (Bridge.stop failWdd initState).closed = [] ∧
        (Bridge.stop failWdd initState).state.wddClosed = initState.wddClosed ∧
        (Bridge.stop failWdd initState).state.combClosed = initState.combClosed ∧
        (Bridge.stop failWdd initState).state.camsClosed = initState.camsClosed ∧
        (Bridge.stop failWdd initState).state.statsClosed = initState.statsClosed ∧
        (Bridge.stop failWdd initState).state.screenClosed = initState.screenClosed) ∧
      (failWdd.wddFails = false → failWdd.combFails = true →
        (Bridge.stop failWdd initState).err = some "comb" ∧
        (Bridge.stop failWdd initState).closed = ["wdd"] ∧
        (Bridge.stop failWdd initState).state.wddClosed = true ∧
        (Bridge.stop failWdd initState).state.combClosed = initState.combClosed ∧
        (Bridge.stop failWdd initState).state.camsClosed = initState.camsClosed ∧
        (Bridge.stop failWdd initState).state.statsClosed = initState.statsClosed ∧
        (Bridge.stop failWdd initState).state.screenClosed = initState.screenClosed) ∧
      (failWdd.wddFails = false → failWdd.combFails = false →
        initState.statsPresent = true → failWdd.statsFails = true →
        (Bridge.stop failWdd initState).err = some "statistics" ∧
        (Bridge.stop failWdd initState).closed = ["wdd", "comb", "cameras"] ∧
        (Bridge.stop failWdd initState).state.wddClosed = true ∧
        (Bridge.stop failWdd initState).state.combClosed = true ∧
        (Bridge.stop failWdd initState).state.camsClosed = true ∧
        (Bridge.stop failWdd initState).state.statsClosed = initState.statsClosed ∧
        (Bridge.stop failWdd initState).state.screenClosed = initState.screenClosed) ∧
      (failWdd.wddFails = false → failWdd.combFails = false →
        (initState.statsPresent = true → failWdd.statsFails = false) →
        initState.screenOpen = true → failWdd.screenFails = true →
        (Bridge.stop failWdd initState).err = some "screen" ∧
        (Bridge.stop failWdd initState).closed
            = (if initState.statsPresent then ["wdd", "comb", "cameras", "statistics"]
               else ["wdd", "comb", "cameras"]) ∧
        (Bridge.stop failWdd initState).state.wddClosed = true ∧
        (Bridge.stop failWdd initState).state.combClosed = true ∧
        (Bridge.stop failWdd initState).state.camsClosed = true ∧
        (Bridge.stop failWdd initState).state.statsClosed
            = (initState.statsPresent || initState.statsClosed) ∧
        (Bridge.stop failWdd initState).state.screenClosed = initState.screenClosed) ∧
      (failWdd.wddFails = false → failWdd.combFails = false →
        (initState.statsPresent = true → failWdd.statsFails = false) →
        (initState.screenOpen = true → failWdd.screenFails = false) →
        (Bridge.stop failWdd initState).err = none ∧
        (Bridge.stop failWdd initState).state.wddClosed = true ∧
        (Bridge.stop failWdd initState).state.combClosed = true ∧
        (Bridge.stop failWdd initState).state.camsClosed = true ∧
        (Bridge.stop failWdd initState).state.statsClosed
            = (initState.statsPresent || initState.statsClosed) ∧
        (Bridge.stop failWdd initState).state.screenClosed
            = (initState.screenOpen || initState.screenClosed))) :=
  ⟨by decide, stop_close_failure_aborts_sequence failWdd initState (by decide)⟩

/-- Claim C10: the print_fn closure is append-only.  Each call appends
exactly one timestamped line at the end of the UI log buffer: the new buffer
is the old one plus one entry, its length grows by exactly one (so it is
monotonically non-decreasing and unbounded), and every existing entry is
left in place unchanged. -/
theorem print_fn_append_only (now x : String) (s : LogState) :
    (Bridge.print_fn now x s).log = s.log ++ ["[" ++ now ++ "] " ++ x] ∧
    (Bridge.print_fn now x s).log.length = s.log.length + 1 ∧
    (Bridge.print_fn now x s).log.take s.log.length = s.log ∧
    (Bridge.print_fn now x s).log.drop s.log.length = ["[" ++ now ++ "] " ++ x] := by
  refine ⟨rfl, ?_, ?_, ?_⟩ <;> simp [Bridge.print_fn]

/-- After stopOk the running flag is always false. -/
theorem stopOk_running_false (s : BridgeState) : (Bridge.stopOk s).running = false := by
  unfold Bridge.stopOk
  cases h : s.running <;> simp [h]

/-- stopOk on an already-stopped state is the identity (the body is guarded
by the running flag). -/
theorem stopOk_of_not_running (s : BridgeState) (h : s.running = false) :
    Bridge.stopOk s = s := by
  unfold Bridge.stopOk
  simp [h]

/-- stopOk is idempotent. -/
theorem stopOk_idem (s : BridgeState) :
    Bridge.stopOk (Bridge.stopOk s) = Bridge.stopOk s :=
  stopOk_of_not_running _ (stopOk_running_false s)

/-- stopOk from a running state executes the stop body exactly once. -/
theorem stopOk_stopRuns (s : BridgeState) (h : s.running = true) :
    (Bridge.stopOk s).stopRuns = s.stopRuns + 1 := by
  unfold Bridge.stopOk
  simp [h]

/-- Claim C4: on every terminating execution of Bridge.run that starts in a
running state, the body of Bridge.stop executes exactly once before run
returns or propagates, for every exit cause (normal stop, quit keystroke,
external stop during the wait, or the uncaught KeyError from the
unknown-camera lookup), and the final state is no longer running. -/
theorem run_triggers_stop_exactly_once
    (cameras : String → Option (Event → List CombTriggerActuatorMessage))
    (ticks : List TickInput) (s : BridgeState) (h : s.running = true)
    (hdone : (Bridge.run cameras ticks s).1 ≠ RunExit.outOfScript) :
    (Bridge.run cameras ticks s).2.stopRuns = s.stopRuns + 1 ∧
    (Bridge.run cameras ticks s).2.running = false := by
  induction ticks generalizing s with
  | nil => exact absurd (by simp [Bridge.run, h]) hdone
  | cons t rest ih =>
    cases hq : t.quitKey with
    | true =>
      cases hw : t.stopDuringWait <;>
        simp [Bridge.run, h, hq, hw, stopOk_idem, stopOk_running_false, stopOk_stopRuns s h]
    | false =>
      cases hw : t.stopDuringWait with
      | true =>
        simp [Bridge.run, h, hq, hw, stopOk_idem, stopOk_running_false, stopOk_stopRuns s h]
      | false =>
        cases hm : t.message with
        | none =>
          have hstep : Bridge.run cameras (t :: rest) s = Bridge.run cameras rest s := by
            simp [Bridge.run, h, hq, hw, hm]
          rw [hstep] at hdone ⊢
          exact ih s h hdone
        | some ev =>
          cases hc : cameras ev.cam_id with
          | some hiveSide =>
            have hstep : Bridge.run cameras (t :: rest) s
                = Bridge.run cameras rest { s with sent := s.sent ++ hiveSide ev } := by
              simp [Bridge.run, h, hq, hw, hm, hc]
            rw [hstep] at hdone ⊢
            exact ih { s with sent := s.sent ++ hiveSide ev } h hdone
          | none =>
            have hstep : Bridge.run cameras (t :: rest) s
                = (RunExit.keyError ev.cam_id,
                   Bridge.stopOk
                     { s with log := s.log ++ ["Received waggle for invalid camera ID."] }) := by
              simp [Bridge.run, h, hq, hw, hm, hc]
            rw [hstep]
            constructor
            · exact stopOk_stopRuns { s with log := _ } h
            · exact stopOk_running_false _

/-- Witness for claim C4: one tick whose quit keystroke stops a freshly
started bridge; the loop exits normally with the stop body executed once. -/
theorem run_triggers_stop_exactly_once_witness :
    initState.running = true ∧
    (Bridge.run cexCameras [⟨true, false, none⟩] initState).1 ≠ RunExit.outOfScript ∧
    ((Bridge.run cexCameras [⟨true, false, none⟩] initState).2.stopRuns
        = initState.stopRuns + 1 ∧
      (Bridge.run cexCameras [⟨true, false, none⟩] initState).2.running = false) :=
  ⟨by decide, by decide,
    run_triggers_stop_exactly_once cexCameras [⟨true, false, none⟩] initState
      (by decide) (by decide)⟩

/-- Claim C1 (failing input): an event for the unconfigured camera "ghost"
arriving at a running bridge whose only configured camera is "cam1".  The
loop does print exactly one diagnostic line and emits zero commands, but it
does not continue: the lookup self.cameras[waggle_cam_id] on line 149 runs
unconditionally after the diagnostic of line 148, so a KeyError propagates,
the loop terminates, and the try/finally runs the stop sequence. -/
theorem run_unknown_camera_raises :
    cexCameras "ghost" = none ∧
    (Bridge.run cexCameras [⟨false, false, some ⟨"ghost", 0⟩⟩] initState).1
        = RunExit.keyError "ghost" ∧
    (Bridge.run cexCameras [⟨false, false, some ⟨"ghost", 0⟩⟩] initState).2.sent = [] ∧
    (Bridge.run cexCameras [⟨false, false, some ⟨"ghost", 0⟩⟩] initState).2.log
        = ["Received waggle for invalid camera ID."] ∧
    (Bridge.run cexCameras [⟨false, false, some ⟨"ghost", 0⟩⟩] initState).2.running = false :=
  ⟨rfl, by decide, by decide, by decide, by decide⟩

/-- Claim C7 counterexample: a stop request arriving during the bounded wait
makes line 140 discard the batch the wait just returned.  With the single
configured camera "cam1", whose processing would yield one command, a tick
with stopDuringWait and a pulled message ends the loop normally with zero
commands dispatched — the pulled batch is discarded, contradicting the
claim that it is always fully processed. -/
theorem pulled_batch_discarded_on_stop_cex :
    cexCameras "cam1" = some camOneProc ∧
    camOneProc ⟨"cam1", 0⟩ = [{ idx := 2, signal_index := 1, side := 1 }] ∧
    (Bridge.run cexCameras [⟨false, true, some ⟨"cam1", 0⟩⟩] initState).1 = RunExit.normal ∧
    (Bridge.run cexCameras [⟨false, true, some ⟨"cam1", 0⟩⟩] initState).2.sent = [] :=
  ⟨rfl, rfl, by decide, by decide⟩

/-- Claim C7 (amended): when the bounded wait yields a batch and no stop
request arrived before or during the wait (so the running flag is still true
at the line-140 recheck), the batch is fully processed and all its commands
are appended to the dispatch stream before the loop re-checks the running
flag: the next iteration starts from a state already containing every
command of the batch.  A batch pulled in an iteration in which a stop
request did arrive is discarded by the line-140 recheck instead. -/
theorem pulled_batch_dispatched_when_running
    (cameras : String → Option (Event → List CombTriggerActuatorMessage))
    (t : TickInput) (rest : List TickInput) (s : BridgeState)
    (ev : Event) (hiveSide : Event → List CombTriggerActuatorMessage)
    (hrun : s.running = true) (hq : t.quitKey = false) (hw : t.stopDuringWait = false)
    (hm : t.message = some ev) (hc : cameras ev.cam_id = some hiveSide) :
    Bridge.run cameras (t :: rest) s
      = Bridge.run cameras rest { s with sent := s.sent ++ hiveSide ev } := by
  simp [Bridge.run, hrun, hq, hw, hm, hc]

/-- Witness for the amended claim C7, at a concrete tick carrying an event
for the configured camera "cam1" with no stop request. -/
theorem pulled_batch_dispatched_when_running_witness :
    initState.running = true ∧
    cexCameras "cam1" = some camOneProc ∧
    Bridge.run cexCameras [⟨false, false, some ⟨"cam1", 0⟩⟩] initState
      = Bridge.run cexCameras []
          { initState with sent := initState.sent ++ camOneProc ⟨"cam1", 0⟩ } :=
  ⟨rfl, rfl,
    pulled_batch_dispatched_when_running cexCameras ⟨false, false, some ⟨"cam1", 0⟩⟩ []
      initState ⟨"cam1", 0⟩ camOneProc rfl rfl rfl rfl rfl⟩

/-- Claim C6: HiveSide.process is one-to-one on observations.  For every
camera id, every external mapper and every observation list produced by the
clusterer, exactly one log line is emitted and exactly one actuator message
is yielded per observation — both output lists have the length of the
observation list, so nothing is filtered or deduplicated at this layer —
and every yielded message carries signal_index = 1. -/
theorem process_one_log_one_command_each (cam_id : String)
    (map_to_comb : ℝ → ℝ → Option ℝ → MapResult) (coordinates : List Obs) :
    (HiveSide.process cam_id map_to_comb coordinates).1.length = coordinates.length ∧
    (HiveSide.process cam_id map_to_comb coordinates).2.length = coordinates.length ∧
    (HiveSide.process cam_id map_to_comb coordinates).2.map
        CombTriggerActuatorMessage.signal_index
      = List.replicate coordinates.length 1 := by
  induction coordinates with
  | nil => simp [HiveSide.process]
  | cons o rest ih =>
    simp [HiveSide.process, List.replicate_succ, ih.1, ih.2.1, ih.2.2]

/-- Claim C9: every actuator message yielded by HiveSide.process has
side = 1, for every camera id, mapper and observation list — the side field
is the literal constant 1 of line 48 and never varies between bindings, so
it never distinguishes the two comb faces. -/
theorem process_side_always_one (cam_id : String)
    (map_to_comb : ℝ → ℝ → Option ℝ → MapResult) (coordinates : List Obs) :
    (HiveSide.process cam_id map_to_comb coordinates).2.map
        CombTriggerActuatorMessage.side
      = List.replicate coordinates.length 1 := by
  induction coordinates with
  | nil => simp [HiveSide.process]
  | cons o rest ih => simp [HiveSide.process, List.replicate_succ, ih]

/-- The Python float modulo of b + w by b is w itself when 0 <= w < b. -/
theorem fmod_of_base_add {b w : ℝ} (hb : 0 < b) (h0 : 0 ≤ w) (h1 : w < b) :
    fmod (b + w) b = w := by
  have hbne : b ≠ 0 := ne_of_gt hb
  have hq : (b + w) / b = w / b + 1 := by
    field_simp
    ring
  have hz : ⌊w / b⌋ = 0 := by
    rw [Int.floor_eq_zero_iff]
    exact Set.mem_Ico.mpr ⟨div_nonneg h0 hb.le, (div_lt_one hb).mpr h1⟩
  unfold fmod
  rw [hq, Int.floor_add_one, hz]
  push_cast
  ring

/-- The Python float modulo is invariant under adding one period. -/
theorem fmod_add_cycle {a b : ℝ} (hb : b ≠ 0) : fmod (a + b) b = fmod a b := by
  have hq : (a + b) / b = a / b + 1 := by
    field_simp
  unfold fmod
  rw [hq, Int.floor_add_one]
  push_cast
  ring

/-- There are 16 direction labels. -/
theorem worldDirections_length : worldDirections.length = 16 := rfl

/-- On [0, 2*pi) the normalization of line 42 is the identity and the bucket
index of line 43 is the floor of w * 8 / pi. -/
theorem worldAngleIndex_floor (w : ℝ) (h0 : 0 ≤ w) (h1 : w < 2 * Real.pi) :
    worldAngleIndex w = ⌊w * 8 / Real.pi⌋ := by
  have hpi := Real.pi_pos
  have hfmod : fmod (2 * Real.pi + w) (2 * Real.pi) = w :=
    fmod_of_base_add Real.two_pi_pos h0 h1
  have harg : w / Real.pi * 180 / (360 / (worldDirections.length : ℝ))
      = w * 8 / Real.pi := by
    rw [worldDirections_length]
    push_cast
    rw [div_div_eq_mul_div, div_mul_eq_mul_div, mul_comm]
    ring
  unfold worldAngleIndex
  rw [hfmod, harg]
  unfold pytrunc
  rw [if_pos (div_nonneg (by linarith) hpi.le)]

/-- Claim C5: direction-bucket classification is total and deterministic.
For every world angle w in [0, 2*pi), the index computed after the
(2*pi + w) mod 2*pi normalization lies in [0, 16), hence exactly one of the
16 labels of worldDirections is selected; angle 0 selects "E"; and the
classification is continuous across the 0 / 2*pi wrap: shifting the angle by
a full turn selects the same bucket. -/
theorem direction_bucket_total_deterministic (w : ℝ) (h0 : 0 ≤ w)
    (h1 : w < 2 * Real.pi) :
    0 ≤ worldAngleIndex w ∧ worldAngleIndex w < 16 ∧
    (∃! i : Fin 16, (i : ℕ) = (worldAngleIndex w).toNat) ∧
    worldDirection 0 = "E" ∧
    worldAngleIndex (w + 2 * Real.pi) = worldAngleIndex w := by
  have hpi := Real.pi_pos
  have hidx : worldAngleIndex w = ⌊w * 8 / Real.pi⌋ := worldAngleIndex_floor w h0 h1
  have hge : 0 ≤ worldAngleIndex w := by
    rw [hidx]
    exact Int.le_floor.mpr (by push_cast; exact div_nonneg (by linarith) hpi.le)
  have hlt : worldAngleIndex w < 16 := by
    rw [hidx]
    refine Int.floor_lt.mpr ?_
    push_cast
    rw [div_lt_iff₀ hpi]
    linarith
  refine ⟨hge, hlt, ?_, ?_, ?_⟩
  · refine ⟨⟨(worldAngleIndex w).toNat, by omega⟩, rfl, ?_⟩
    intro j hj
    exact Fin.ext hj
  · have h00 : worldAngleIndex 0 = 0 := by
      rw [worldAngleIndex_floor 0 le_rfl Real.two_pi_pos]
      norm_num
    unfold worldDirection
    rw [h00]
    rfl
  · have hb : (2 * Real.pi) ≠ 0 := ne_of_gt Real.two_pi_pos
    unfold worldAngleIndex
    have hr : 2 * Real.pi + (w + 2 * Real.pi) = (2 * Real.pi + w) + 2 * Real.pi := by
      ring
    rw [hr, fmod_add_cycle hb]

/-- Witness for claim C5 at the concrete world angle 0. -/
theorem direction_bucket_total_deterministic_witness :
    (0 : ℝ) ≤ 0 ∧ (0 : ℝ) < 2 * Real.pi ∧
    (0 ≤ worldAngleIndex 0 ∧ worldAngleIndex 0 < 16 ∧
      (∃! i : Fin 16, (i : ℕ) = (worldAngleIndex 0).toNat) ∧
      worldDirection 0 = "E" ∧
      worldAngleIndex (0 + 2 * Real.pi) = worldAngleIndex 0) :=
  ⟨le_rfl, Real.two_pi_pos,
    direction_bucket_total_deterministic 0 le_rfl Real.two_pi_pos⟩

/-- Reading a list back off by positional getD over its index range. -/
theorem range_map_getD (l : List String) :
    (List.range l.length).map (fun i => l.getD i "") = l := by
  induction l with
  | nil => simp
  | cons a t ih =>
    rw [List.length_cons, List.range_succ_eq_map, List.map_cons, List.map_map]
    simpa [Function.comp_def] using ih

/-- Claim C8 counterexample: on a 10-row screen with the comb outline ending
at row 5 there are 4 display rows below the outline, yet the panel selects
space = height - cbottom = 5 lines and, drawing from row cbottom + 2 = 7,
places its last line at row 11 — outside the 10-row display surface. -/
theorem log_panel_overflow_cex :
    (10 : ℤ) - 5 - 1 = 4 ∧
    (Bridge.logPanel 10 5 ["a", "b", "c", "d", "e", "f"]).length = 5 ∧
    ((11 : ℤ), "f") ∈ Bridge.logPanel 10 5 ["a", "b", "c", "d", "e", "f"] ∧
    ¬ (11 : ℤ) < 10 := by
  decide

/-- Claim C8 (amended): each render tick the log panel selects exactly the
most recent min(height - cbottom, stored) log lines — zero when
height <= cbottom — and draws the i-th selected line at row cbottom + 2 + i;
because the count is height - cbottom but drawing starts two rows below the
outline, the drawn rows can extend to height + 1, beyond the display
surface. -/
theorem log_panel_amended_spec (height cbottom : ℤ) (log : List String) :
    (Bridge.logPanel height cbottom log).length
        = min (height - cbottom).toNat log.length ∧
    (Bridge.logPanel height cbottom log).map Prod.snd
        = log.drop (log.length - (height - cbottom).toNat) ∧
    (Bridge.logPanel height cbottom log).map Prod.fst
        = (List.range (min (height - cbottom).toNat log.length)).map
            (fun (i : ℕ) => cbottom + 2 + (i : ℤ)) := by
  by_cases hs : 0 < height - cbottom
  · have hpanel : Bridge.logPanel height cbottom log
        = (List.range (min (log.drop (log.length - (height - cbottom).toNat)).length
            (height - cbottom).toNat)).map
            (fun (i : ℕ) => (cbottom + 2 + (i : ℤ),
              (log.drop (log.length - (height - cbottom).toNat)).getD i "")) := by
      simp only [Bridge.logPanel]
      rw [if_pos hs]
    have hlen : (log.drop (log.length - (height - cbottom).toNat)).length
        = min (height - cbottom).toNat log.length := by
      rw [List.length_drop]
      omega
    have hmin : min (log.drop (log.length - (height - cbottom).toNat)).length
        (height - cbottom).toNat
        = (log.drop (log.length - (height - cbottom).toNat)).length := by
      rw [hlen]
      omega
    refine ⟨?_, ?_, ?_⟩
    · rw [hpanel, List.length_map, List.length_range, hmin, hlen]
    · rw [hpanel, List.map_map, hmin]
      have hcomp : (Prod.snd ∘ fun (i : ℕ) => ((cbottom + 2 + (i : ℤ)),
          (log.drop (log.length - (height - cbottom).toNat)).getD i ""))
          = fun (i : ℕ) => (log.drop (log.length - (height - cbottom).toNat)).getD i "" := by
        funext i
        rfl
      rw [hcomp, range_map_getD]
    · rw [hpanel, List.map_map, hmin, hlen]
      apply List.map_congr_left
      intro i _
      rfl
  · have h0 : (height - cbottom).toNat = 0 := by omega
    simp [Bridge.logPanel, hs, h0, List.drop_length]

end WddBridge
